import Mathlib

/-!
Verification of the sentiment-analysis serving API (`src/api/main.py`).

The file embeds the two request handlers (`predict` and `feedback`) as pure
Lean functions.  The opaque external artifacts — the Keras model and the
tokenizer — are parameters: the tokenizer is a function
`String → Except String (List Nat)` (it may raise) and the model a function
`List Nat → Except String ℚ` (its single output scalar is modelled as a
rational; the claims concern only the comparison against 0.5).  The in-memory
misprediction counter (a Python dict) is modelled as an association list with
Python-dict semantics: lookup with default, in-place update of an existing
key, append of a fresh key.  Handler outcomes record the HTTP status, the
response body, the logged lines, and how many times the tokenizer and the
model were invoked.
-/

/-- Whitespace predicate used by the Python `str.strip()` method (ASCII part;
the source only ever distinguishes all-whitespace from not). -/
def isPySpace (c : Char) : Bool :=
  c == ' ' || c == '\t' || c == '\n' || c == '\r' || c == '\x0b' || c == '\x0c'

/-- Python `str.strip()`: remove leading and trailing whitespace. -/
def pyStrip (s : String) : String :=
  ⟨((s.data.dropWhile isPySpace).reverse.dropWhile isPySpace).reverse⟩

/-- Keras `pad_sequences(…, maxlen, padding="post", truncating="post")` on a
single sequence: keep the first `maxlen` entries of an overlong sequence,
append the filler `value` to a short one. -/
def padSequence (maxlen : Nat) (value : Nat) (seq : List Nat) : List Nat :=
  if maxlen ≤ seq.length then seq.take maxlen
  else seq ++ List.replicate (maxlen - seq.length) value

/-- Outcome of one `/predict` call: HTTP status, the `prediction` field of a
success body, the `detail` of an error body, invocation counts for the
tokenizer and the model, and the log lines emitted. -/
structure PredictOutcome where
  status : Nat
  body : Option String
  detail : Option String
  tokCalls : Nat
  mdlCalls : Nat
  logs : List String
deriving DecidableEq

/-- The `/predict` handler (`predict` in `src/api/main.py`): reject
whitespace-only text with 400 before touching the tokenizer or the model;
tokenize, pad to length 50, run the model, threshold the scalar at 0.5; any
failure of tokenizer or model becomes an opaque 500 whose underlying message
is only logged. -/
def predict (tok : String → Except String (List Nat))
    (mdl : List Nat → Except String ℚ) (text : String) : PredictOutcome :=
  if pyStrip text = "" then
    { status := 400, body := none, detail := some "Le texte d\x27entrée est vide",
      tokCalls := 0, mdlCalls := 0,
      logs := ["Mauvaise requête : Le texte d\x27entrée est vide"] }
  else
    match tok text with
    | .error e =>
        { status := 500, body := none,
          detail := some "Erreur serveur lors de la prédiction",
          tokCalls := 1, mdlCalls := 0,
          logs := ["Erreur de prédiction : " ++ e] }
    | .ok seq =>
        match mdl (padSequence 50 0 seq) with
        | .error e =>
            { status := 500, body := none,
              detail := some "Erreur serveur lors de la prédiction",
              tokCalls := 1, mdlCalls := 1,
              logs := ["Erreur de prédiction : " ++ e] }
        | .ok p =>
            let sentiment := if p > (0.5 : ℚ) then "positive" else "negative"
            { status := 200, body := some sentiment, detail := none,
              tokCalls := 1, mdlCalls := 1,
              logs := ["Prédiction : " ++ sentiment ++ " | Texte : " ++ text] }

/-- The in-memory `error_feedback_counter` dict: raw text ↦ count. -/
abbrev Counter := List (String × Nat)

/-- Python `d.get(k, dflt)`. -/
def dictGet (d : Counter) (k : String) (dflt : Nat) : Nat :=
  match d with
  | [] => dflt
  | p :: rest => if p.1 = k then p.2 else dictGet rest k dflt

/-- Python `k in d`. -/
def dictMem (d : Counter) (k : String) : Bool :=
  match d with
  | [] => false
  | p :: rest => p.1 = k || dictMem rest k

/-- Python `d[k] = v`: overwrite the existing entry, append a fresh one. -/
def dictSet (d : Counter) (k : String) (v : Nat) : Counter :=
  match d with
  | [] => [(k, v)]
  | p :: rest => if p.1 = k then (k, v) :: rest else p :: dictSet rest k v

/-- Body of a `/feedback` request. -/
structure FeedbackInput where
  text : String
  prediction : String
  validation : Bool
deriving DecidableEq

/-- Outcome of one `/feedback` call: HTTP status, the success `message`, the
error `detail`, the updated counter, whether the misprediction warning was
logged, and whether the escalated alert (`logger.error`) was emitted. -/
structure FeedbackOutcome where
  status : Nat
  message : Option String
  detail : Option String
  counter : Counter
  warned : Bool
  alert : Bool
deriving DecidableEq

/-- The `/feedback` handler (`feedback` in `src/api/main.py`): 400 on
whitespace-only text, then 400 on a prediction label outside
`["positive", "negative"]`; on `validation = false` increment the per-text
counter (default 0) and emit the alert when the stored count reaches 3;
always answer with the fixed success message otherwise. -/
def feedback (counter : Counter) (inp : FeedbackInput) : FeedbackOutcome :=
  if pyStrip inp.text = "" then
    { status := 400, message := none, detail := some "Le texte du tweet est vide",
      counter := counter, warned := false, alert := false }
  else if inp.prediction ∉ (["positive", "negative"] : List String) then
    { status := 400, message := none, detail := some "Prédiction invalide",
      counter := counter, warned := false, alert := false }
  else if inp.validation = false then
    let counter' := dictSet counter inp.text (dictGet counter inp.text 0 + 1)
    { status := 200, message := some "Feedback enregistré, merci !",
      detail := none, counter := counter', warned := true,
      alert := decide (3 ≤ dictGet counter' inp.text 0) }
  else
    { status := 200, message := some "Feedback enregistré, merci !",
      detail := none, counter := counter, warned := false, alert := false }

/-- Folding a sequence of `/feedback` calls over the shared counter. -/
def runFeedbacks (c : Counter) : List FeedbackInput → Counter
  | [] => c
  | i :: rest => runFeedbacks (feedback c i).counter rest

/-! ## Helper lemmas -/

/-- The stripped text is empty exactly when every character is whitespace
(in particular on the empty string). -/
theorem pyStrip_eq_empty_iff (s : String) :
    pyStrip s = "" ↔ s.data.all isPySpace = true := by
  unfold pyStrip
  rw [List.all_eq_true]
  constructor
  · intro h x hx
    have hnil : ((s.data.dropWhile isPySpace).reverse.dropWhile isPySpace).reverse
        = [] := by
      have := congrArg String.data h
      simpa using this
    rw [List.reverse_eq_nil_iff, List.dropWhile_eq_nil_iff] at hnil
    have hdrop : ∀ x ∈ s.data.dropWhile isPySpace, isPySpace x = true := by
      intro y hy
      exact hnil y (List.mem_reverse.mpr hy)
    rcases (List.mem_append.mp
        (by rw [List.takeWhile_append_dropWhile] ; exact hx :
          x ∈ s.data.takeWhile isPySpace ++ s.data.dropWhile isPySpace)) with
      htk | hdr
    · exact List.mem_takeWhile_imp htk
    · exact hdrop x hdr
  · intro h
    have h1 : s.data.dropWhile isPySpace = [] :=
      List.dropWhile_eq_nil_iff.mpr fun x hx => h x hx
    rw [h1]
    rfl

/-- Reading back the key just written. -/
theorem dictGet_dictSet_same (d : Counter) (k : String) (v : Nat) (dflt : Nat) :
    dictGet (dictSet d k v) k dflt = v := by
  induction d with
  | nil => simp [dictSet, dictGet]
  | cons hd tl ih =>
      by_cases h : hd.1 = k
      · simp [dictSet, dictGet, h]
      · simp [dictSet, dictGet, h, ih]

/-- Writing one key leaves the value read at any other key unchanged. -/
theorem dictGet_dictSet_ne (d : Counter) (k k' : String) (v : Nat) (dflt : Nat)
    (h : k' ≠ k) : dictGet (dictSet d k v) k' dflt = dictGet d k' dflt := by
  induction d with
  | nil => simp only [dictSet, dictGet, if_neg (Ne.symm h)]
  | cons hd tl ih =>
      by_cases hh : hd.1 = k
      · simp only [dictSet, if_pos hh, dictGet, if_neg (Ne.symm h)]
        rw [if_neg (by rw [hh] ; exact Ne.symm h)]
      · simp only [dictSet, if_neg hh, dictGet, ih]

/-- Membership after a write: the written key plus the old keys. -/
theorem dictMem_dictSet (d : Counter) (k k' : String) (v : Nat) :
    dictMem (dictSet d k v) k' = (dictMem d k' || decide (k' = k)) := by
  induction d with
  | nil => simp [dictSet, dictMem, eq_comm]
  | cons hd tl ih =>
      by_cases hh : hd.1 = k
      · by_cases hk : k' = k
        · subst hk
          simp [dictSet, dictMem, hh]
        · simp [dictSet, dictMem, hh, hk, Ne.symm hk]
      · simp only [dictSet, if_neg hh, dictMem, ih]
        rw [Bool.or_assoc]

/-! ## Claim theorems -/

/-- C1: for every non-empty input text on which tokenization and inference
succeed, `/predict` answers 200 with a `prediction` field that is exactly one
of `positive`/`negative`, and it is `positive` iff the model scalar is
strictly greater than 0.5 (`negative` at exactly 0.5). -/
theorem predict_threshold_label (tok : String → Except String (List Nat))
    (mdl : List Nat → Except String ℚ) (text : String) (seq : List Nat) (p : ℚ)
    (ht : pyStrip text ≠ "") (htok : tok text = .ok seq)
    (hmdl : mdl (padSequence 50 0 seq) = .ok p) :
    (predict tok mdl text).status = 200 ∧
    (predict tok mdl text).body
      = some (if p > (0.5 : ℚ) then "positive" else "negative") ∧
    ((0.5 : ℚ) < p → (predict tok mdl text).body = some "positive") ∧
    (p ≤ (0.5 : ℚ) → (predict tok mdl text).body = some "negative") ∧
    ((predict tok mdl text).body = some "positive" ∨
      (predict tok mdl text).body = some "negative") := by
  have hstatus : (predict tok mdl text).status = 200 := by
    simp only [predict, if_neg ht, htok, hmdl]
  have hbody : (predict tok mdl text).body
      = some (if p > (0.5 : ℚ) then "positive" else "negative") := by
    simp only [predict, if_neg ht, htok, hmdl]
  refine ⟨hstatus, hbody, ?_, ?_, ?_⟩
  · intro hp
    rw [hbody, if_pos hp]
  · intro hp
    rw [hbody, if_neg (not_lt.mpr hp)]
  · by_cases hp : (0.5 : ℚ) < p
    · exact Or.inl (by rw [hbody, if_pos hp])
    · exact Or.inr (by rw [hbody, if_neg hp])

/-- Witness for C1 at a concrete tokenizer, model and text. -/
theorem predict_threshold_label_witness :
    (predict (fun _ => Except.ok [1, 2, 3]) (fun _ => Except.ok (1 : ℚ))
        "good").status = 200 ∧
    (predict (fun _ => Except.ok [1, 2, 3]) (fun _ => Except.ok (1 : ℚ))
        "good").body
      = some (if (1 : ℚ) > (0.5 : ℚ) then "positive" else "negative") ∧
    ((0.5 : ℚ) < 1 →
      (predict (fun _ => Except.ok [1, 2, 3]) (fun _ => Except.ok (1 : ℚ))
        "good").body = some "positive") ∧
    ((1 : ℚ) ≤ (0.5 : ℚ) →
      (predict (fun _ => Except.ok [1, 2, 3]) (fun _ => Except.ok (1 : ℚ))
        "good").body = some "negative") ∧
    ((predict (fun _ => Except.ok [1, 2, 3]) (fun _ => Except.ok (1 : ℚ))
        "good").body = some "positive" ∨
      (predict (fun _ => Except.ok [1, 2, 3]) (fun _ => Except.ok (1 : ℚ))
        "good").body = some "negative") :=
  predict_threshold_label (fun _ => Except.ok [1, 2, 3])
    (fun _ => Except.ok (1 : ℚ)) "good" [1, 2, 3] 1 (by decide) rfl rfl

/-- C5: whitespace-only (in particular empty) text makes `/predict` answer
400 without ever invoking the tokenizer or the model. -/
theorem predict_whitespace_rejected (tok : String → Except String (List Nat))
    (mdl : List Nat → Except String ℚ) (text : String)
    (h : text.data.all isPySpace = true) :
    (predict tok mdl text).status = 400 ∧
    (predict tok mdl text).detail = some "Le texte d\x27entrée est vide" ∧
    (predict tok mdl text).tokCalls = 0 ∧
    (predict tok mdl text).mdlCalls = 0 := by
  have h1 : pyStrip text = "" := (pyStrip_eq_empty_iff text).mpr h
  unfold predict
  rw [if_pos h1]
  exact ⟨rfl, rfl, rfl, rfl⟩

/-- Witness for C5 at a concrete whitespace-only text. -/
theorem predict_whitespace_rejected_witness :
    (predict (fun _ => Except.error "") (fun _ => Except.error "")
        "  ").status = 400 ∧
    (predict (fun _ => Except.error "") (fun _ => Except.error "")
        "  ").detail = some "Le texte d\x27entrée est vide" ∧
    (predict (fun _ => Except.error "") (fun _ => Except.error "")
        "  ").tokCalls = 0 ∧
    (predict (fun _ => Except.error "") (fun _ => Except.error "")
        "  ").mdlCalls = 0 :=
  predict_whitespace_rejected (fun _ => Except.error "")
    (fun _ => Except.error "") "  " (by decide)

/-- C4: `/feedback` answers 400 exactly when the text is whitespace-only
(in particular empty) or the prediction label is outside the fixed two-value
set, and a 400 answer carries no success message. -/
theorem feedback_reject_iff (c : Counter) (i : FeedbackInput) :
    ((feedback c i).status = 400 ↔
      (i.text.data.all isPySpace = true ∨
        i.prediction ∉ (["positive", "negative"] : List String))) ∧
    ((feedback c i).status = 400 → (feedback c i).message = none) := by
  by_cases h1 : pyStrip i.text = ""
  · have hs : (feedback c i).status = 400 := by
      unfold feedback
      rw [if_pos h1]
    have hm : (feedback c i).message = none := by
      unfold feedback
      rw [if_pos h1]
    exact ⟨⟨fun _ => Or.inl ((pyStrip_eq_empty_iff _).mp h1), fun _ => hs⟩,
      fun _ => hm⟩
  · have hws : ¬ i.text.data.all isPySpace = true :=
      fun hc => h1 ((pyStrip_eq_empty_iff _).mpr hc)
    by_cases h2 : i.prediction ∉ (["positive", "negative"] : List String)
    · have hs : (feedback c i).status = 400 := by
        unfold feedback
        rw [if_neg h1, if_pos h2]
      have hm : (feedback c i).message = none := by
        unfold feedback
        rw [if_neg h1, if_pos h2]
      exact ⟨⟨fun _ => Or.inr h2, fun _ => hs⟩, fun _ => hm⟩
    · have hs : (feedback c i).status = 200 := by
        unfold feedback
        rw [if_neg h1, if_neg h2]
        by_cases hv : i.validation = false
        · rw [if_pos hv]
        · rw [if_neg hv]
      refine ⟨⟨fun hc => ?_, fun hc => ?_⟩, fun hc => ?_⟩
      · rw [hs] at hc
        norm_num at hc
      · rcases hc with hc | hc
        · exact absurd hc hws
        · exact absurd hc h2
      · rw [hs] at hc
        norm_num at hc

/-- Witness for C4 at a concrete rejected request (empty text). -/
theorem feedback_reject_iff_witness :
    ((feedback [] ⟨"", "positive", true⟩).status = 400 ↔
      (("" : String).data.all isPySpace = true ∨
        "positive" ∉ (["positive", "negative"] : List String))) ∧
    ((feedback [] ⟨"", "positive", true⟩).status = 400 →
      (feedback [] ⟨"", "positive", true⟩).message = none) :=
  feedback_reject_iff [] ⟨"", "positive", true⟩

/-- C10: `/feedback` rejects whitespace-only text, not only the empty
string, with a 400 because the check strips whitespace before testing. -/
theorem feedback_whitespace_only_rejected (c : Counter) (i : FeedbackInput)
    (_hne : i.text ≠ "") (hws : i.text.data.all isPySpace = true) :
    (feedback c i).status = 400 ∧
    (feedback c i).detail = some "Le texte du tweet est vide" := by
  have h1 : pyStrip i.text = "" := (pyStrip_eq_empty_iff _).mpr hws
  unfold feedback
  rw [if_pos h1]
  exact ⟨rfl, rfl⟩

/-- Witness for C10 at a concrete non-empty whitespace-only text. -/
theorem feedback_whitespace_only_rejected_witness :
    (" " : String) ≠ "" ∧
    ((feedback [] ⟨" ", "positive", true⟩).status = 400 ∧
      (feedback [] ⟨" ", "positive", true⟩).detail
        = some "Le texte du tweet est vide") :=
  ⟨by decide, feedback_whitespace_only_rejected [] ⟨" ", "positive", true⟩
    (by decide) (by decide)⟩

/-- C2: a valid `/feedback` request with `validation = false` bumps the
counter entry for exactly its text by one (creating it at one when absent),
a valid request with `validation = true` leaves the counter untouched, and
both answer with the fixed success message. -/
theorem feedback_counter_update (c : Counter) (i : FeedbackInput)
    (ht : pyStrip i.text ≠ "")
    (hp : i.prediction ∈ (["positive", "negative"] : List String)) :
    (feedback c i).status = 200 ∧
    (feedback c i).message = some "Feedback enregistré, merci !" ∧
    (i.validation = false →
      dictGet (feedback c i).counter i.text 0 = dictGet c i.text 0 + 1 ∧
      dictMem (feedback c i).counter i.text = true ∧
      (dictMem c i.text = false → dictGet (feedback c i).counter i.text 0 = 1)) ∧
    (i.validation = true → (feedback c i).counter = c) := by
  have h2 : ¬ i.prediction ∉ (["positive", "negative"] : List String) :=
    not_not_intro hp
  cases hv : i.validation with
  | false =>
      have hc : (feedback c i).counter
          = dictSet c i.text (dictGet c i.text 0 + 1) := by
        simp only [feedback, if_neg ht, if_neg h2, hv, ite_true]
      refine ⟨?_, ?_, fun _ => ⟨?_, ?_, ?_⟩, fun hcon => absurd hcon (by simp)⟩
      · simp only [feedback, if_neg ht, if_neg h2, hv, ite_true]
      · simp only [feedback, if_neg ht, if_neg h2, hv, ite_true]
      · rw [hc, dictGet_dictSet_same]
      · rw [hc, dictMem_dictSet]
        simp
      · intro habs
        rw [hc, dictGet_dictSet_same]
        have : dictGet c i.text 0 = 0 := by
          clear hc
          induction c with
          | nil => rfl
          | cons hd tl ih =>
              by_cases hh : hd.1 = i.text
              · rw [dictMem] at habs
                simp [hh] at habs
              · rw [dictMem] at habs
                simp only [dictGet, if_neg hh]
                refine ih ?_
                simpa [hh] using habs
        rw [this]
  | true =>
      have hne : ¬ i.validation = false := by
        rw [hv]
        simp
      refine ⟨?_, ?_, fun hcon => absurd hcon (by simp), fun _ => ?_⟩
      · simp only [feedback, if_neg ht, if_neg h2, if_neg hne]
      · simp only [feedback, if_neg ht, if_neg h2, if_neg hne]
      · simp only [feedback, if_neg ht, if_neg h2, if_neg hne]

/-- Witness for C2 at a concrete valid misprediction report on an empty
counter. -/
theorem feedback_counter_update_witness :
    (feedback [] ⟨"bad day", "positive", false⟩).status = 200 ∧
    (feedback [] ⟨"bad day", "positive", false⟩).message
      = some "Feedback enregistré, merci !" ∧
    ((false : Bool) = false →
      dictGet (feedback [] ⟨"bad day", "positive", false⟩).counter "bad day" 0
        = dictGet [] "bad day" 0 + 1 ∧
      dictMem (feedback [] ⟨"bad day", "positive", false⟩).counter "bad day"
        = true ∧
      (dictMem [] "bad day" = false →
        dictGet (feedback [] ⟨"bad day", "positive", false⟩).counter
          "bad day" 0 = 1)) ∧
    ((false : Bool) = true →
      (feedback [] ⟨"bad day", "positive", false⟩).counter = []) :=
  feedback_counter_update [] ⟨"bad day", "positive", false⟩ (by decide)
    (by decide)

/-- C3: on a valid `/feedback` call with `validation = false` the escalated
log signal fires exactly when the per-text count after the increment has
reached 3. -/
theorem feedback_alert_iff_threshold (c : Counter) (i : FeedbackInput)
    (ht : pyStrip i.text ≠ "")
    (hp : i.prediction ∈ (["positive", "negative"] : List String))
    (hv : i.validation = false) :
    dictGet (feedback c i).counter i.text 0 = dictGet c i.text 0 + 1 ∧
    ((feedback c i).alert = true ↔
      3 ≤ dictGet (feedback c i).counter i.text 0) := by
  have h2 : ¬ i.prediction ∉ (["positive", "negative"] : List String) :=
    not_not_intro hp
  have hc : (feedback c i).counter
      = dictSet c i.text (dictGet c i.text 0 + 1) := by
    simp only [feedback, if_neg ht, if_neg h2, hv, ite_true]
  have ha : (feedback c i).alert
      = decide (3 ≤ dictGet (dictSet c i.text (dictGet c i.text 0 + 1))
          i.text 0) := by
    simp only [feedback, if_neg ht, if_neg h2, hv, ite_true]
  refine ⟨by rw [hc, dictGet_dictSet_same], ?_⟩
  rw [ha, hc]
  exact decide_eq_true_iff

/-- Witness for C3: the third report for the same text raises the alert. -/
theorem feedback_alert_iff_threshold_witness :
    dictGet (feedback [("bad", 2)] ⟨"bad", "negative", false⟩).counter
      "bad" 0 = dictGet [("bad", 2)] "bad" 0 + 1 ∧
    ((feedback [("bad", 2)] ⟨"bad", "negative", false⟩).alert = true ↔
      3 ≤ dictGet (feedback [("bad", 2)] ⟨"bad", "negative", false⟩).counter
        "bad" 0) :=
  feedback_alert_iff_threshold [("bad", 2)] ⟨"bad", "negative", false⟩
    (by decide) (by decide) rfl

/-- C6: the sequence handed to the model always has length exactly 50 —
post-padding with the filler id 0 when short, post-truncation when long —
and on a successfully tokenized text the `/predict` outcome depends on the
model only through its value at that padded sequence. -/
theorem predict_padded_length_fifty (tok : String → Except String (List Nat))
    (mdl mdl' : List Nat → Except String ℚ) (text : String) (seq : List Nat)
    (ht : pyStrip text ≠ "") (htok : tok text = .ok seq)
    (hm : mdl (padSequence 50 0 seq) = mdl' (padSequence 50 0 seq)) :
    (padSequence 50 0 seq).length = 50 ∧
    (seq.length ≤ 50 →
      padSequence 50 0 seq = seq ++ List.replicate (50 - seq.length) 0) ∧
    (50 < seq.length → padSequence 50 0 seq = seq.take 50) ∧
    predict tok mdl text = predict tok mdl' text := by
  refine ⟨?_, ?_, ?_, ?_⟩
  · unfold padSequence
    by_cases h : 50 ≤ seq.length
    · rw [if_pos h]
      simp [List.length_take]
      omega
    · rw [if_neg h]
      simp [List.length_append, List.length_replicate]
      omega
  · intro h
    unfold padSequence
    by_cases h50 : 50 ≤ seq.length
    · have hlen : seq.length = 50 := le_antisymm h h50
      rw [if_pos h50, List.take_of_length_le h, hlen]
      simp
    · rw [if_neg h50]
  · intro h
    unfold padSequence
    rw [if_pos (le_of_lt h)]
  · simp only [predict, if_neg ht, htok, hm]

/-- Witness for C6 at a concrete short token sequence. -/
theorem predict_padded_length_fifty_witness :
    (padSequence 50 0 [7]).length = 50 ∧
    (([7] : List Nat).length ≤ 50 →
      padSequence 50 0 [7] = [7] ++ List.replicate (50 - ([7] : List Nat).length) 0) ∧
    (50 < ([7] : List Nat).length → padSequence 50 0 [7] = ([7] : List Nat).take 50) ∧
    predict (fun _ => Except.ok [7]) (fun _ => Except.ok (1 : ℚ)) "hey"
      = predict (fun _ => Except.ok [7]) (fun _ => Except.ok (1 : ℚ)) "hey" :=
  predict_padded_length_fifty (fun _ => Except.ok [7])
    (fun _ => Except.ok (1 : ℚ)) (fun _ => Except.ok (1 : ℚ)) "hey" [7]
    (by decide) rfl rfl

/-- C7: when tokenization or inference fails on a non-empty text, `/predict`
answers 500 with the fixed opaque detail, the underlying error message
appears in the server-side log, and neither the tokenizer nor the model is
invoked more than once. -/
theorem predict_internal_error_opaque (tok : String → Except String (List Nat))
    (mdl : List Nat → Except String ℚ) (text : String)
    (ht : pyStrip text ≠ "")
    (herr : (∃ e, tok text = .error e) ∨
      (∃ seq e, tok text = .ok seq ∧ mdl (padSequence 50 0 seq) = .error e)) :
    (predict tok mdl text).status = 500 ∧
    (predict tok mdl text).detail = some "Erreur serveur lors de la prédiction" ∧
    (∀ e, tok text = .error e →
      ("Erreur de prédiction : " ++ e) ∈ (predict tok mdl text).logs) ∧
    (∀ seq e, tok text = .ok seq → mdl (padSequence 50 0 seq) = .error e →
      ("Erreur de prédiction : " ++ e) ∈ (predict tok mdl text).logs) ∧
    (predict tok mdl text).tokCalls ≤ 1 ∧
    (predict tok mdl text).mdlCalls ≤ 1 := by
  rcases herr with ⟨e, he⟩ | ⟨seq, e, hseq, he⟩
  · have hout : predict tok mdl text =
        { status := 500, body := none,
          detail := some "Erreur serveur lors de la prédiction",
          tokCalls := 1, mdlCalls := 0,
          logs := ["Erreur de prédiction : " ++ e] } := by
      unfold predict
      rw [if_neg ht, he]
    rw [hout]
    refine ⟨rfl, rfl, ?_, ?_, by norm_num, by norm_num⟩
    · intro e' he'
      have : e' = e := by
        rw [he] at he'
        simpa using he'.symm
      subst this
      simp
    · intro seq' e' hok
      rw [he] at hok
      simp at hok
  · have hout : predict tok mdl text =
        { status := 500, body := none,
          detail := some "Erreur serveur lors de la prédiction",
          tokCalls := 1, mdlCalls := 1,
          logs := ["Erreur de prédiction : " ++ e] } := by
      simp only [predict, if_neg ht, hseq, he]
    rw [hout]
    refine ⟨rfl, rfl, ?_, ?_, by norm_num, by norm_num⟩
    · intro e' he'
      rw [hseq] at he'
      simp at he'
    · intro seq' e' hok hmdl'
      rw [hseq] at hok
      have hs : seq' = seq := by simpa using hok.symm
      subst hs
      rw [he] at hmdl'
      have : e' = e := by simpa using hmdl'.symm
      subst this
      simp

/-- Witness for C7 at a concrete failing tokenizer. -/
theorem predict_internal_error_opaque_witness :
    (predict (fun _ => Except.error "boom") (fun _ => Except.ok (1 : ℚ))
        "hey").status = 500 ∧
    (predict (fun _ => Except.error "boom") (fun _ => Except.ok (1 : ℚ))
        "hey").detail = some "Erreur serveur lors de la prédiction" ∧
    (∀ e, (fun _ => Except.error "boom" : String → Except String (List Nat))
          "hey" = .error e →
      ("Erreur de prédiction : " ++ e) ∈
        (predict (fun _ => Except.error "boom") (fun _ => Except.ok (1 : ℚ))
          "hey").logs) ∧
    (∀ seq e,
      (fun _ => Except.error "boom" : String → Except String (List Nat)) "hey"
          = .ok seq →
      (fun _ => Except.ok (1 : ℚ) : List Nat → Except String ℚ)
          (padSequence 50 0 seq) = .error e →
      ("Erreur de prédiction : " ++ e) ∈
        (predict (fun _ => Except.error "boom") (fun _ => Except.ok (1 : ℚ))
          "hey").logs) ∧
    (predict (fun _ => Except.error "boom") (fun _ => Except.ok (1 : ℚ))
        "hey").tokCalls ≤ 1 ∧
    (predict (fun _ => Except.error "boom") (fun _ => Except.ok (1 : ℚ))
        "hey").mdlCalls ≤ 1 :=
  predict_internal_error_opaque (fun _ => Except.error "boom")
    (fun _ => Except.ok (1 : ℚ)) "hey" (by decide) (Or.inl ⟨"boom", rfl⟩)

/-- One `/feedback` call never decreases any per-text count and never drops
an existing counter entry. -/
theorem feedback_step_le (c : Counter) (i : FeedbackInput) (k : String) :
    dictGet c k 0 ≤ dictGet (feedback c i).counter k 0 ∧
    (dictMem c k = true → dictMem (feedback c i).counter k = true) := by
  by_cases h1 : pyStrip i.text = ""
  · have hc : (feedback c i).counter = c := by
      unfold feedback
      rw [if_pos h1]
    rw [hc]
    exact ⟨le_refl _, fun h => h⟩
  · by_cases h2 : i.prediction ∉ (["positive", "negative"] : List String)
    · have hc : (feedback c i).counter = c := by
        unfold feedback
        rw [if_neg h1, if_pos h2]
      rw [hc]
      exact ⟨le_refl _, fun h => h⟩
    · by_cases hv : i.validation = false
      · have hc : (feedback c i).counter
            = dictSet c i.text (dictGet c i.text 0 + 1) := by
          simp only [feedback, if_neg h1, if_neg h2, hv, ite_true]
        rw [hc]
        constructor
        · by_cases hk : k = i.text
          · subst hk
            rw [dictGet_dictSet_same]
            exact Nat.le_succ _
          · rw [dictGet_dictSet_ne _ _ _ _ _ hk]
        · intro hm
          rw [dictMem_dictSet, hm]
          simp
      · have hc : (feedback c i).counter = c := by
          unfold feedback
          rw [if_neg h1, if_neg h2, if_neg hv]
        rw [hc]
        exact ⟨le_refl _, fun h => h⟩

/-- C8: across any sequence of `/feedback` calls every per-text counter
value is monotonically non-decreasing and no entry is ever removed. -/
theorem feedback_counter_monotone (c : Counter) (inputs : List FeedbackInput)
    (k : String) :
    dictGet c k 0 ≤ dictGet (runFeedbacks c inputs) k 0 ∧
    (dictMem c k = true → dictMem (runFeedbacks c inputs) k = true) := by
  induction inputs generalizing c with
  | nil => exact ⟨le_refl _, fun h => h⟩
  | cons i rest ih =>
      have hstep := feedback_step_le c i k
      have hrest := ih (feedback c i).counter
      exact ⟨le_trans hstep.1 hrest.1, fun hm => hrest.2 (hstep.2 hm)⟩

/-- Witness for C8 at a concrete two-call sequence. -/
theorem feedback_counter_monotone_witness :
    dictGet [("a", 1)] "a" 0 ≤
      dictGet (runFeedbacks [("a", 1)]
        [⟨"a", "positive", false⟩, ⟨"b", "negative", false⟩]) "a" 0 ∧
    (dictMem [("a", 1)] "a" = true →
      dictMem (runFeedbacks [("a", 1)]
        [⟨"a", "positive", false⟩, ⟨"b", "negative", false⟩]) "a" = true) :=
  feedback_counter_monotone [("a", 1)]
    [⟨"a", "positive", false⟩, ⟨"b", "negative", false⟩] "a"

/-- C9: one `/feedback` call can change at most the counter entry keyed by
its own text — value and membership at every other key are untouched — and a
call answered with 400 leaves the whole counter unchanged. -/
theorem feedback_frame_property (c : Counter) (i : FeedbackInput) (k : String)
    (hk : k ≠ i.text) :
    dictGet (feedback c i).counter k 0 = dictGet c k 0 ∧
    dictMem (feedback c i).counter k = dictMem c k ∧
    ((feedback c i).status = 400 → (feedback c i).counter = c) := by
  by_cases h1 : pyStrip i.text = ""
  · have hc : (feedback c i).counter = c := by
      unfold feedback
      rw [if_pos h1]
    rw [hc]
    exact ⟨rfl, rfl, fun _ => rfl⟩
  · by_cases h2 : i.prediction ∉ (["positive", "negative"] : List String)
    · have hc : (feedback c i).counter = c := by
        unfold feedback
        rw [if_neg h1, if_pos h2]
      rw [hc]
      exact ⟨rfl, rfl, fun _ => rfl⟩
    · by_cases hv : i.validation = false
      · have hc : (feedback c i).counter
            = dictSet c i.text (dictGet c i.text 0 + 1) := by
          simp only [feedback, if_neg h1, if_neg h2, hv, ite_true]
        have hs : (feedback c i).status = 200 := by
          simp only [feedback, if_neg h1, if_neg h2, hv, ite_true]
        refine ⟨?_, ?_, fun hcon => ?_⟩
        · rw [hc, dictGet_dictSet_ne _ _ _ _ _ hk]
        · rw [hc, dictMem_dictSet]
          simp [hk]
        · rw [hs] at hcon
          norm_num at hcon
      · have hc : (feedback c i).counter = c := by
          unfold feedback
          rw [if_neg h1, if_neg h2, if_neg hv]
        rw [hc]
        exact ⟨rfl, rfl, fun _ => rfl⟩

/-- Witness for C9 at a concrete call touching a different key. -/
theorem feedback_frame_property_witness :
    dictGet (feedback [("a", 1)] ⟨"b", "positive", false⟩).counter "a" 0
      = dictGet [("a", 1)] "a" 0 ∧
    dictMem (feedback [("a", 1)] ⟨"b", "positive", false⟩).counter "a"
      = dictMem [("a", 1)] "a" ∧
    ((feedback [("a", 1)] ⟨"b", "positive", false⟩).status = 400 →
      (feedback [("a", 1)] ⟨"b", "positive", false⟩).counter = [("a", 1)]) :=
  feedback_frame_property [("a", 1)] ⟨"b", "positive", false⟩ "a" (by decide)
